import Mathlib

/-!
Verification of the query/aggregation/anomaly-detection engine of an
oceanographic (Argo) float exploration backend.

The Lean definitions below are a shallow embedding of the Python source:

* `backend/app/main.py`, `_detect_anomalies` — anomaly detection;
* `backend/app/crud.py`, `get_latest_measurements_for_floats` — selection of
  the "latest" measurement per float;
* `backend/app/services/geospatial.py` — bounding-box / location / variable /
  depth filters and per-variable statistics;
* `backend/app/api/v1/endpoints/ai_query.py` — comparison handler and the
  irrelevant-query rejection;
* `backend/app/services/ai_service.py`, `_extract_basic_parameters` — the
  deterministic keyword fallback extractor.

Python floats are modelled as exact rationals (`ℚ`).  The only real-number
operation of the source is `statistics.stdev` (a square root); since `ℚ` has
no computable square root, every comparison that the source performs against
the standard deviation σ is embedded in the algebraically equivalent squared
form against the sample variance σ² (the equivalence for σ > 0 is proved in
the theorems that mention z-scores, using `Real.sqrt`).
-/

/-- Arithmetic mean of a list of rationals; embeds `statistics.mean`.
For the empty list the source raises; the Lean value (division by zero,
hence `0`) is never reached because every caller checks the length first. -/
def meanQ (xs : List ℚ) : ℚ := xs.sum / xs.length

/-- Sample variance with divisor N−1; embeds the square of
`statistics.stdev` (`statistics.variance`).  The source's σ is
`Real.sqrt` of this value. -/
def sampleVarQ (xs : List ℚ) : ℚ :=
  ((xs.map (fun x => (x - meanQ xs) ^ 2)).sum) / ((xs.length : ℚ) - 1)

/-- One anomaly record, the data carried by the `anomaly_text` string built in
`_detect_anomalies` (`main.py`).  `zsq` is the square of the reported z-score
(the source's `z_score` equals `Real.sqrt zsq`); `context` is the optional
scientific-context suffix appended to the alert text. -/
structure AnomalyRecord where
  floatId : Nat
  varName : String
  value : ℚ
  zsq : ℚ
  direction : String
  context : Option String
deriving DecidableEq, Repr

/-- Scientific-context suffix attached in `_detect_anomalies`: the three fixed
(variable, direction) pairs, no suffix otherwise. -/
def scientificContext (varName direction : String) : Option String :=
  if varName = "temperature" ∧ direction = "high" then
    some "Possible marine heatwave or warm water intrusion"
  else if varName = "salinity" ∧ direction = "low" then
    some "Possible freshwater input or precipitation event"
  else if varName = "dissolved_oxygen" ∧ direction = "low" then
    some "Possible hypoxic conditions or biological activity"
  else none

/-- The per-float body of the inner loop of `_detect_anomalies` (`main.py`
lines 362–388): look up the float's latest value for the variable, compute
the z-score against the baseline mean and flag when it exceeds 2.0 strictly,
keep only floats present in the summary lookup, and set the direction.
The source's test `z_score > 2.0` with `z_score = abs(v - mean)/std`,
`std = sqrt(varVal)`, is embedded as the equivalent `4 * varVal < (v-mean)²`
(equivalence proved in `anomaly_flag_iff_zscore`). -/
def flagEntry (varName : String) (meanVal varVal : ℚ) (floatIds : List Nat)
    (entry : Nat × List (String × ℚ)) : Option AnomalyRecord :=
  match (entry.2).lookup varName with
  | none => none
  | some v =>
      if 4 * varVal < (v - meanVal) ^ 2 then
        if entry.1 ∈ floatIds then
          let dir := if meanVal < v then "high" else "low"
          some { floatId := entry.1, varName := varName, value := v,
                 zsq := (v - meanVal) ^ 2 / varVal, direction := dir,
                 context := scientificContext varName dir }
        else none
      else none

/-- The per-variable body of `_detect_anomalies` (`main.py` lines 349–388):
skip the variable when the baseline sample has fewer than 10 values; compute
baseline mean and deviation and skip when the deviation is zero (the source
tests `std_val == 0` with `std_val = statistics.stdev(...)`; σ = 0 holds
exactly when the sample variance σ² = 0); otherwise scan every entry of the
latest-measurements mapping in its iteration order. -/
def scanVariable (varName : String) (baseline : List ℚ)
    (latest : List (Nat × List (String × ℚ))) (floatIds : List Nat) :
    List AnomalyRecord :=
  if baseline.length < 10 then []
  else
    let meanVal := meanQ baseline
    let varVal := sampleVarQ baseline
    if varVal = 0 then []
    else latest.filterMap (flagEntry varName meanVal varVal floatIds)

/-- `_detect_anomalies` (`main.py` lines 323–395): iterate the requested
variable list in order, skip a variable absent from the baseline data, and
concatenate the per-variable records.  `latest` models the
`latest_measurements` dict (insertion-ordered association list), `floatIds`
the keys of the `float_lookup` built from the float summaries. -/
def detectAnomalies (varList : List String)
    (baselineData : List (String × List ℚ))
    (latest : List (Nat × List (String × ℚ))) (floatIds : List Nat) :
    List AnomalyRecord :=
  varList.flatMap (fun varName =>
    match baselineData.lookup varName with
    | none => []
    | some baseline => scanVariable varName baseline latest floatIds)

/-- Modelled from the spec: the deterministic emission order claimed for the
anomaly records — by variable in the scan order of the variable list (position of
the record's variable in the list), then z-score descending, ties broken by
float id ascending.  Ordering by z is expressed on `zsq` = z², equivalent
because z ≥ 0 and squaring is strictly monotone on nonnegatives. -/
def specOrderedB (varList : List String) : List AnomalyRecord → Bool
  | [] => true
  | [_] => true
  | r1 :: r2 :: rs =>
      (decide (varList.indexOf r1.varName < varList.indexOf r2.varName) ||
        (decide (varList.indexOf r1.varName = varList.indexOf r2.varName) &&
          (decide (r2.zsq < r1.zsq) ||
            (decide (r1.zsq = r2.zsq) && decide (r1.floatId ≤ r2.floatId))))) &&
      specOrderedB varList (r2 :: rs)

/-- One row of the latest-measurement query in
`get_latest_measurements_for_floats` (`crud.py` lines 518–589): the SELECT
projects the float id and the `temperature`, `salinity`, `pressure`,
`dissolved_oxygen` and `ph` columns of each measurement of the float's most
recent profile. -/
structure MeasRow where
  floatId : Nat
  pressure : ℚ
  temperature : Option ℚ
  salinity : Option ℚ
  dissolved_oxygen : Option ℚ
  ph : Option ℚ
deriving DecidableEq, Repr

/-- Attribute access `getattr(row, variable)` on a result row for the
variable names the anomaly path requests; `pressure` is a non-nullable
column.  Names that are not projected columns have no attribute
(`hasattr` fails), modelled as `none`. -/
def rowValue (r : MeasRow) (varName : String) : Option ℚ :=
  if varName = "temperature" then r.temperature
  else if varName = "salinity" then r.salinity
  else if varName = "pressure" then some r.pressure
  else if varName = "dissolved_oxygen" then r.dissolved_oxygen
  else if varName = "ph" then r.ph
  else none

/-- Insertion step of `ORDER BY Measurement.pressure DESC`. -/
def insertByPressureDesc (r : MeasRow) : List MeasRow → List MeasRow
  | [] => [r]
  | x :: xs =>
      if x.pressure ≤ r.pressure then r :: x :: xs
      else x :: insertByPressureDesc r xs

/-- The `.order_by(Measurement.pressure.desc())` clause of
`get_latest_measurements_for_floats`: sort the result rows by pressure,
largest (deepest) first. -/
def sortByPressureDesc : List MeasRow → List MeasRow
  | [] => []
  | x :: xs => insertByPressureDesc x (sortByPressureDesc xs)

/-- The grouping loop of `get_latest_measurements_for_floats`: walk the
ordered rows and keep, for each float id, only the first row encountered,
extracting the non-null requested variables of that row. -/
def groupFirstRow (varList : List String) (seen : List Nat) :
    List MeasRow → List (Nat × List (String × ℚ))
  | [] => []
  | r :: rs =>
      if r.floatId ∈ seen then groupFirstRow varList seen rs
      else
        (r.floatId,
          varList.filterMap (fun v => (rowValue r v).map (fun q => (v, q)))) ::
          groupFirstRow varList (r.floatId :: seen) rs

/-- `get_latest_measurements_for_floats` (`crud.py` lines 518–589) after the
database has been read: `rows` are the measurements of each float's most
recent profile; the function orders them by pressure descending and keeps
the first row per float. -/
def getLatestMeasurements (rows : List MeasRow) (varList : List String) :
    List (Nat × List (String × ℚ)) :=
  groupFirstRow varList [] (sortByPressureDesc rows)

/-- A measurement entity (`models.py`, class `Measurement`): required
pressure, derived depth, and the optional named variable columns.  Quality
flags, adjusted duplicates and bookkeeping columns are never requested as
variables by the engine and are not represented. -/
structure MeasurementE where
  pressure : ℚ
  depth : Option ℚ
  temperature : Option ℚ
  salinity : Option ℚ
  dissolved_oxygen : Option ℚ
  ph : Option ℚ
  nitrate : Option ℚ
  chlorophyll : Option ℚ
deriving DecidableEq, Repr

/-- A profile entity (`models.py`, class `Profile`): position and owned
measurements (the filters use only these fields). -/
structure ProfileE where
  latitude : ℚ
  longitude : ℚ
  measurements : List MeasurementE
deriving DecidableEq, Repr

/-- A float entity (`models.py`, class `Float`): identity, status, owned
profiles (descriptive metadata columns are unused by the verified claims). -/
structure FloatE where
  id : Nat
  status : String
  profiles : List ProfileE
deriving DecidableEq, Repr

/-- `getattr(Measurement, variable)` applied to a measurement: the value of
a variable column, with non-nullable `pressure` always present; `none` for
a name that is not a measurement column. -/
def measValue (m : MeasurementE) (varName : String) : Option ℚ :=
  if varName = "pressure" then some m.pressure
  else if varName = "depth" then m.depth
  else if varName = "temperature" then m.temperature
  else if varName = "salinity" then m.salinity
  else if varName = "dissolved_oxygen" then m.dissolved_oxygen
  else if varName = "ph" then m.ph
  else if varName = "nitrate" then m.nitrate
  else if varName = "chlorophyll" then m.chlorophyll
  else none

/-- `hasattr(Measurement, variable)` restricted to the variable-like columns
(the bookkeeping attributes of the ORM class are never requested by the
engine's callers). -/
def isMeasurementColumn (varName : String) : Bool :=
  varName ∈ ["pressure", "depth", "temperature", "salinity",
             "dissolved_oxygen", "ph", "nitrate", "chlorophyll"]

/-- Predicate of `_apply_bbox_filter` (`geospatial.py` lines 266–280) on one
profile: latitude and longitude within the box, bounds inclusive.  The box
is `(minLon, minLat, maxLon, maxLat)` as in the source. -/
def profileInBox (bbox : ℚ × ℚ × ℚ × ℚ) (p : ProfileE) : Bool :=
  decide (bbox.2.1 ≤ p.latitude) && decide (p.latitude ≤ bbox.2.2.2) &&
    decide (bbox.1 ≤ p.longitude) && decide (p.longitude ≤ bbox.2.2.1)

/-- `_apply_bbox_filter`: a float passes when some profile lies in the box
(the SQL `Float.id IN (SELECT profile.float_id WHERE ...)`). -/
def applyBboxFilter (bbox : ℚ × ℚ × ℚ × ℚ) (floats : List FloatE) :
    List FloatE :=
  floats.filter (fun f => f.profiles.any (profileInBox bbox))

/-- ASCII lowercasing of one character, the effect of Python `str.lower()`
on the ASCII questions and location names handled here. -/
def lowerChar (c : Char) : Char :=
  if 'A' ≤ c ∧ c ≤ 'Z' then Char.ofNat (c.toNat + 32) else c

/-- Lowercased character list of a string (`question.lower()`,
`location.lower()`). -/
def lowerStr (s : String) : List Char := s.data.map lowerChar

/-- Whether the first list is a prefix of the second (helper for substring
containment). -/
def startsWithL : List Char → List Char → Bool
  | [], _ => true
  | _ :: _, [] => false
  | a :: as, b :: bs => a = b && startsWithL as bs

/-- Python's `needle in haystack` substring containment. -/
def containsSub (needle : List Char) : List Char → Bool
  | [] => needle.isEmpty
  | c :: t => startsWithL needle (c :: t) || containsSub needle t

/-- `any(keyword in text for keyword in keywords)`. -/
def anyKw (kws : List String) (s : List Char) : Bool :=
  kws.any (fun k => containsSub k.data s)

/-- The fixed region table of `_apply_location_filter` (`geospatial.py`
lines 282–311), in dict iteration order; boxes are
`(minLon, minLat, maxLon, maxLat)`. -/
def regionBounds : List (String × (ℚ × ℚ × ℚ × ℚ)) :=
  [("pacific", (-180, -60, -70, 60)),
   ("atlantic", (-80, -60, 20, 70)),
   ("indian", (20, -60, 120, 30)),
   ("arctic", (-180, 66, 180, 90)),
   ("southern", (-180, -90, 180, -60)),
   ("south", (-180, -90, 180, -60))]

/-- `_apply_location_filter`: collect the regions whose name occurs in the
lowercased location, use the first match's box, and apply no restriction
when no region matches. -/
def applyLocationFilter (location : String) (floats : List FloatE) :
    List FloatE :=
  match regionBounds.filter (fun rb => containsSub rb.1.data (lowerStr location)) with
  | [] => floats
  | rb :: _ => applyBboxFilter rb.2 floats

/-- `_apply_variable_filter` (`geospatial.py` lines 328–346): keep the
requested names that are measurement columns; when none remain the query is
returned unchanged; otherwise a float passes when some measurement of some
profile has a non-null value for at least one of them (the SQL `OR` across
the column `IS NOT NULL` tests). -/
def applyVariableFilter (varList : List String) (floats : List FloatE) :
    List FloatE :=
  let valid := varList.filter isMeasurementColumn
  if valid.isEmpty then floats
  else
    floats.filter (fun f =>
      f.profiles.any (fun p =>
        p.measurements.any (fun m =>
          valid.any (fun v => (measValue m v).isSome))))

/-- Modelled from the spec (claim C4's predicate): a float matches when at
least one of the requested variables — as written, with no recognition
check — has a non-null value in at least one of its measurements. -/
def specVariableMatch (varList : List String) (f : FloatE) : Bool :=
  varList.any (fun v =>
    f.profiles.any (fun p =>
      p.measurements.any (fun m => (measValue m v).isSome)))

/-- The fixed depth-to-pressure conversion of `_apply_depth_filter`
(`geospatial.py` lines 348–366): meters × 1.02 = decibars. -/
def depthToPressure (d : ℚ) : ℚ := d * 1.02

/-- `_apply_depth_filter`: convert the depth interval to pressure and keep
floats having a measurement whose pressure lies in the converted interval,
bounds inclusive. -/
def applyDepthFilter (depthRange : ℚ × ℚ) (floats : List FloatE) :
    List FloatE :=
  let minP := depthToPressure depthRange.1
  let maxP := depthToPressure depthRange.2
  floats.filter (fun f =>
    f.profiles.any (fun p =>
      p.measurements.any (fun m =>
        decide (minP ≤ m.pressure) && decide (m.pressure ≤ maxP))))

/-- Per-variable aggregate statistics row of
`_calculate_variable_statistics` (`geospatial.py` lines 539–589): count,
mean, min and max of the non-null values (the SQL `stddev` column is
computed there too but never read by the comparison logic and is omitted). -/
structure VarStats where
  count : Nat
  mean : ℚ
  minVal : ℚ
  maxVal : ℚ
deriving DecidableEq, Repr

/-- All non-null values of a variable over every measurement of every
profile of the given floats (the rows the aggregate query ranges over). -/
def collectValues (floats : List FloatE) (varName : String) : List ℚ :=
  floats.flatMap (fun f =>
    f.profiles.flatMap (fun p =>
      p.measurements.filterMap (fun m => measValue m varName)))

/-- The aggregate of one variable: present only when the non-null count is
positive (`if row.count and row.count > 0`). -/
def varStatistics (floats : List FloatE) (varName : String) : Option VarStats :=
  match collectValues floats varName with
  | [] => none
  | v :: rest =>
      some { count := (v :: rest).length, mean := meanQ (v :: rest),
             minVal := rest.foldl min v, maxVal := rest.foldl max v }

/-- The `variable_map` membership test of `_calculate_variable_statistics`
(`if var not in variable_map: continue`). -/
def isStatsVariable (varName : String) : Bool :=
  varName ∈ ["temperature", "salinity", "pressure", "dissolved_oxygen",
             "ph", "nitrate", "chlorophyll"]

/-- `_calculate_variable_statistics`: one stats row per requested variable
that is in the variable map and has a positive non-null count. -/
def variableStatistics (floats : List FloatE) (varList : List String) :
    List (String × VarStats) :=
  varList.filterMap (fun v =>
    if isStatsVariable v then (varStatistics floats v).map (fun s => (v, s))
    else none)

/-- The filter pipeline of `query_floats_by_parameters` (`geospatial.py`
lines 50–88) below the `if parameters.status:` read, for the criteria the
comparison handler passes (`location = ocean`, the requested variables, no
date, depth or text criteria): location filter, then variable filter, then
the fixed 100-row cap.  In the running program this portion is dead code —
the `status` read on line 48 raises before it (see `compareRegionQuery`). -/
def regionFloats (db : List FloatE) (ocean : String) (varList : List String) :
    List FloatE :=
  (applyVariableFilter varList (applyLocationFilter ocean db)).take 100

/-- The per-region variable statistics reported for one ocean inside the
comparison response (`results[ocean]['data_summary']['variable_statistics']`). -/
def regionStats (db : List FloatE) (ocean : String) (varList : List String) :
    List (String × VarStats) :=
  variableStatistics (regionFloats db ocean varList) varList

/-- The "Key Differences" block of `_handle_comparison_query` (`ai_query.py`
lines 168–177): for each variable with statistics in both regions, compute
`diff = stats1['mean'] - stats2['mean']` and label `oceans[0]` as higher
when `diff > 0`, else `oceans[1]`. -/
def keyDifferences (db : List FloatE) (ocean1 ocean2 : String)
    (varList : List String) : List (String × String) :=
  varList.filterMap (fun v =>
    match (regionStats db ocean1 varList).lookup v,
        (regionStats db ocean2 varList).lookup v with
    | some s1, some s2 =>
        some (v, if 0 < s1.mean - s2.mean then ocean1 else ocean2)
    | _, _ => none)

/-- The default variable list of `_handle_comparison_query`
(`if not variables: variables = ['temperature', 'salinity']`). -/
def defaultComparisonVars : List String := ["temperature", "salinity"]

/-- The response body the text of `_handle_comparison_query` would build:
per-region statistics for every listed ocean, plus the key-difference
labels when exactly two oceans are compared.  Like `regionFloats`, this is
the dead continuation below the failing `status` read; the executable
behaviour of the handler is `compareOceansE`. -/
def compareOceans (db : List FloatE) (oceans : List String)
    (varList0 : List String) :
    List (String × List (String × VarStats)) × List (String × String) :=
  let varList := if varList0.isEmpty then defaultComparisonVars else varList0
  (oceans.map (fun o => (o, regionStats db o varList)),
   match oceans with
   | [o1, o2] => keyDifferences db o1 o2 varList
   | _ => [])

/-- ASCII decimal digit test (regex `\d`). -/
def isDigitC (c : Char) : Bool := '0' ≤ c && c ≤ '9'

/-- ASCII whitespace test (regex `\s`, Python `str.split()` separators). -/
def isSpaceC (c : Char) : Bool :=
  c = ' ' || c = '\t' || c = '\n' || c = '\r' || c = '\x0b' || c = '\x0c'

/-- Helper of `wordCount`: counts word starts; the flag records whether the
previous character was inside a word. -/
def wordsAux (inWord : Bool) : List Char → Nat
  | [] => 0
  | c :: cs =>
      if isSpaceC c then wordsAux false cs
      else (if inWord then 0 else 1) + wordsAux true cs

/-- `len(text.split())`: number of maximal nonblank runs. -/
def wordCount (cs : List Char) : Nat := wordsAux false cs

/-- Drop every leading whitespace character (the greedy tail of `\s+`). -/
def dropWsStar : List Char → List Char
  | [] => []
  | c :: rest => if isSpaceC c then dropWsStar rest else c :: rest

/-- Match `\s+` at the head: requires at least one whitespace character and
consumes the maximal run (no later pattern element can match whitespace, so
maximal munch agrees with regex backtracking). -/
def dropWs1 : List Char → Option (List Char)
  | [] => none
  | c :: rest => if isSpaceC c then some (dropWsStar rest) else none

/-- Match a literal at the head and return the remainder. -/
def matchLitL (lit : List Char) (cs : List Char) : Option (List Char) :=
  if startsWithL lit cs then some (cs.drop lit.length) else none

/-- Match the capture group `(\d+)` at the head: the maximal nonempty digit
run. -/
def matchDigits (cs : List Char) : Option (List Char) :=
  let ds := cs.takeWhile isDigitC
  if ds.isEmpty then none else some ds

/-- The regex `float\s+(?:id\s+)?(\d+)` anchored at the head; when the
optional `id\s+` part matches but no digits follow, the regex backtracks and
tries the digits directly, which our fallback to the pre-`id` remainder
reproduces. -/
def patFloatId (cs : List Char) : Option (List Char) :=
  match matchLitL "float".data cs with
  | none => none
  | some r1 =>
      match dropWs1 r1 with
      | none => none
      | some r2 =>
          let r3 :=
            match matchLitL "id".data r2 with
            | some r2a =>
                match dropWs1 r2a with
                | some r2b => if (r2b.takeWhile isDigitC).isEmpty then r2 else r2b
                | none => r2
            | none => r2
          matchDigits r3

/-- The regex `float\s+#(\d+)` anchored at the head. -/
def patFloatHash (cs : List Char) : Option (List Char) :=
  match matchLitL "float".data cs with
  | none => none
  | some r1 =>
      match dropWs1 r1 with
      | none => none
      | some r2 =>
          match matchLitL "#".data r2 with
          | none => none
          | some r3 => matchDigits r3

/-- The regex `id\s+(\d+)` anchored at the head. -/
def patId (cs : List Char) : Option (List Char) :=
  match matchLitL "id".data cs with
  | none => none
  | some r1 =>
      match dropWs1 r1 with
      | none => none
      | some r2 => matchDigits r2

/-- The regex `wmo\s+(?:id\s+)?(\d+)` anchored at the head. -/
def patWmo (cs : List Char) : Option (List Char) :=
  match matchLitL "wmo".data cs with
  | none => none
  | some r1 =>
      match dropWs1 r1 with
      | none => none
      | some r2 =>
          let r3 :=
            match matchLitL "id".data r2 with
            | some r2a =>
                match dropWs1 r2a with
                | some r2b => if (r2b.takeWhile isDigitC).isEmpty then r2 else r2b
                | none => r2
            | none => r2
          matchDigits r3

/-- `re.search`: try the anchored pattern at each position, leftmost match
wins (every pattern used here starts with a literal, so the empty suffix
never matches). -/
def searchPat (pat : List Char → Option (List Char)) :
    List Char → Option (List Char)
  | [] => none
  | c :: t =>
      match pat (c :: t) with
      | some d => some d
      | none => searchPat pat t

/-- The float-id detection loop of `_extract_basic_parameters`
(`ai_service.py` lines 289–303): the four patterns are tried in source
order; the first one that matches anywhere yields the captured digits. -/
def floatIdSearch (ql : List Char) : Option String :=
  match searchPat patFloatId ql with
  | some d => some (String.mk d)
  | none =>
      match searchPat patFloatHash ql with
      | some d => some (String.mk d)
      | none =>
          match searchPat patId ql with
          | some d => some (String.mk d)
          | none => (searchPat patWmo ql).map String.mk

/-- The `irrelevant_keywords` list of `_extract_basic_parameters`. -/
def irrelevantKeywords : List String :=
  ["weather", "stock", "news", "sports", "movie", "music", "recipe",
   "game", "joke", "story", "song"]

/-- The `oceanographic_keywords` list of `_extract_basic_parameters`. -/
def oceanographicKeywords : List String :=
  ["float", "ocean", "temperature", "salinity", "pressure", "depth",
   "water", "sea", "marine", "oxygen", "pacific", "atlantic", "indian",
   "data", "measurement"]

/-- The `casual_phrases` list of `_extract_basic_parameters`. -/
def casualPhrases : List String :=
  ["hello", "hi", "hey", "thanks", "thank you", "bye", "goodbye"]

/-- The variable-keyword table of `_extract_basic_parameters`
(`ai_service.py` lines 322–337), scanned in source order. -/
def extractVariables (ql : List Char) : List String :=
  (if anyKw ["temperature", "temp", "warm", "cold", "heat"] ql
   then ["temperature"] else []) ++
  (if anyKw ["salinity", "salt", "saline"] ql then ["salinity"] else []) ++
  (if anyKw ["pressure", "depth", "deep"] ql then ["pressure"] else []) ++
  (if anyKw ["oxygen", "o2", "dissolved oxygen", "do"] ql
   then ["dissolved_oxygen"] else []) ++
  (if anyKw ["ph", "acidity"] ql then ["ph"] else []) ++
  (if anyKw ["nitrate", "nitrogen"] ql then ["nitrate"] else []) ++
  (if anyKw ["chlorophyll", "chl"] ql then ["chlorophyll"] else [])

/-- The ocean-name accumulation of the comparison branch of
`_extract_basic_parameters` (`ai_service.py` lines 340–355). -/
def comparisonOceans (ql : List Char) : List String :=
  (if containsSub "pacific".data ql then ["Pacific Ocean"] else []) ++
  (if containsSub "atlantic".data ql then ["Atlantic Ocean"] else []) ++
  (if containsSub "indian".data ql then ["Indian Ocean"] else []) ++
  (if containsSub "arctic".data ql then ["Arctic Ocean"] else []) ++
  (if containsSub "southern".data ql || containsSub "south".data ql
   then ["Southern Ocean"] else [])

/-- Comparison-intent detection: at least one comparison keyword and at
least two recognized ocean names. -/
def comparisonMatch (ql : List Char) : Option (List String) :=
  if anyKw ["compare", "between", "versus", "vs"] ql then
    let oceans := comparisonOceans ql
    if 2 ≤ oceans.length then some oceans else none
  else none

/-- The single-location elif chain of `_extract_basic_parameters`
(`ai_service.py` lines 357–369), evaluated only when no comparison was
detected. -/
def extractLocation (ql : List Char) : Option String :=
  if containsSub "pacific".data ql then some "Pacific Ocean"
  else if containsSub "atlantic".data ql then some "Atlantic Ocean"
  else if containsSub "indian".data ql then some "Indian Ocean"
  else if containsSub "arctic".data ql then some "Arctic Ocean"
  else if containsSub "southern".data ql then some "Southern Ocean"
  else none

/-- The status elif chain of `_extract_basic_parameters` (`ai_service.py`
lines 371–378): substring tests in the order active, inactive,
maintenance. -/
def extractStatus (ql : List Char) : Option String :=
  if containsSub "active".data ql then some "active"
  else if containsSub "inactive".data ql then some "inactive"
  else if containsSub "maintenance".data ql then some "maintenance"
  else none

/-- The keyword arguments the extractor passes to the `QueryParameters`
constructor — the fields of `QueryParameters` (`schemas.py` lines 166–198)
plus `status`: the source passes `status=` and the downstream code reads
`parameters.status`, although the schema class declares no such field, so
the constructed Pydantic model drops it (see `constructSchema`). -/
structure QueryParametersE where
  location : Option String := none
  bbox : Option (ℚ × ℚ × ℚ × ℚ) := none
  start_date : Option String := none
  end_date : Option String := none
  varList : List String := []
  depth_range : Option (ℚ × ℚ) := none
  general_search_term : Option String := none
  status : Option String := none
deriving DecidableEq, Repr

/-- `QueryParameters()` with no arguments: every field empty. -/
def emptyParams : QueryParametersE := {}

/-- `_extract_basic_parameters` (`ai_service.py` lines 286–394): float-id
patterns first; then rejection of questions with irrelevant keywords; then
rejection of short casual questions without oceanographic keywords; then
keyword extraction of variables, comparison intent, location and status,
with the free-text term holding the comparison sentinel, or the whole
question when nothing specific was found. -/
def extractBasicParameters (question : String) : QueryParametersE :=
  let ql := lowerStr question
  match floatIdSearch ql with
  | some ds => { general_search_term := some ("FLOAT_ID:" ++ ds) }
  | none =>
      if anyKw irrelevantKeywords ql then {}
      else if !(anyKw oceanographicKeywords ql) &&
          decide (wordCount ql < 8) && anyKw casualPhrases ql then {}
      else
        let vars := extractVariables ql
        let comparison := comparisonMatch ql
        let location :=
          match comparison with
          | some _ => none
          | none => extractLocation ql
        let status := extractStatus ql
        let gst :=
          match comparison with
          | some oceans => some ("COMPARISON:" ++ String.intercalate "," oceans)
          | none =>
              if status.isNone && location.isNone && vars.isEmpty
              then some question else none
        { location := location, varList := vars, status := status,
          general_search_term := gst }

/-- Python truthiness of an optional string (`None` and `""` are falsy). -/
def isTruthyStr : Option String → Bool
  | none => false
  | some s => !s.isEmpty

/-- The fields that `QueryParameters` (`schemas.py` lines 166–198) actually
declares: location, bbox, start_date, end_date, variables, depth_range and
general_search_term — and no `status`. -/
structure QueryParametersS where
  location : Option String := none
  bbox : Option (ℚ × ℚ × ℚ × ℚ) := none
  start_date : Option String := none
  end_date : Option String := none
  varList : List String := []
  depth_range : Option (ℚ × ℚ) := none
  general_search_term : Option String := none
deriving DecidableEq, Repr

/-- Construction of the Pydantic model from the keyword arguments the
source passes (`QueryParametersE`): `schemas.py` imports `ConfigDict`, so
the app runs on Pydantic v2, whose default `extra='ignore'` silently drops
the unknown `status=` keyword argument; every declared field is kept. -/
def constructSchema (p : QueryParametersE) : QueryParametersS :=
  { location := p.location, bbox := p.bbox, start_date := p.start_date,
    end_date := p.end_date, varList := p.varList,
    depth_range := p.depth_range,
    general_search_term := p.general_search_term }

/-- The exception raised by the attribute read `parameters.status`. -/
def attributeErrorStatus : String :=
  "AttributeError: QueryParameters object has no attribute status"

/-- Reading `parameters.status` on the constructed criteria object:
`status` is not a declared field of `QueryParameters`, and on a Pydantic v2
model reading an undeclared attribute raises `AttributeError`, whatever the
values of the declared fields are — hence the read fails on every input. -/
def readStatusAttr (_p : QueryParametersS) : Except String (Option String) :=
  Except.error attributeErrorStatus

/-- The routing decisions of `process_ai_query` (`ai_query.py` lines
229–268) on the extracted criteria.  `rejected` is the irrelevant-query
branch of the source text (the fixed apology message with an empty float
list); in the running program it is unreachable, because the guard in
front of it reads the undeclared `status` attribute first (see
`routeForParamsS`). -/
inductive QueryRoute where
  | rejected : QueryRoute
  | floatIdRoute (term : String) : QueryRoute
  | comparisonRoute (term : String) : QueryRoute
  | standard : QueryRoute
deriving DecidableEq, Repr

/-- The dispatch of `process_ai_query` past the rejection guard: route on
the `FLOAT_ID:` and `COMPARISON:` sentinels of the free-text term. -/
def dispatchTerm (p : QueryParametersS) : Except String QueryRoute :=
  Except.ok
    (match p.general_search_term with
     | some g =>
         if startsWithL "FLOAT_ID:".data g.data then QueryRoute.floatIdRoute g
         else if startsWithL "COMPARISON:".data g.data then
           QueryRoute.comparisonRoute g
         else QueryRoute.standard
     | none => QueryRoute.standard)

/-- The if-chain of `process_ai_query` (`ai_query.py` lines 229–268) with
its exception behaviour.  The guard
`not parameters.location and not parameters.variables and not
parameters.status and not parameters.general_search_term` short-circuits
left to right: whenever location is falsy and the variable list is empty it
reaches the read of the undeclared `status` attribute, which raises
`AttributeError` — caught by the endpoint's blanket handler and surfaced
as an HTTP 500 "Query Processing Error" — so the rejection branch behind
the guard never runs.  When location or variables are set the guard stops
before the `status` read and the sentinel dispatch proceeds. -/
def routeForParamsS (p : QueryParametersS) : Except String QueryRoute :=
  if !(isTruthyStr p.location) && p.varList.isEmpty then
    match readStatusAttr p with
    | Except.error e => Except.error e
    | Except.ok st =>
        if !(isTruthyStr st) && !(isTruthyStr p.general_search_term) then
          Except.ok QueryRoute.rejected
        else dispatchTerm p
  else dispatchTerm p

/-- The criteria object `_handle_comparison_query` builds for one ocean:
`QueryParameters(location=ocean, variables=variables, status=None,
general_search_term=None)`; the `status=None` keyword argument is dropped
by the schema. -/
def comparisonParams (ocean : String) (varList : List String) :
    QueryParametersS :=
  constructSchema { location := some ocean, varList := varList,
                    status := none, general_search_term := none }

/-- `query_floats_by_parameters` (`geospatial.py` lines 25–88) as called by
the comparison handler: its first filter step is `if parameters.status:`
(line 48), which raises `AttributeError` because the schema declares no
such field.  The `ok` continuation is the pipeline below the read
(`regionFloats`, accurate here because the handler's status is `None`,
falsy, so no status restriction would apply); in the program it never
runs. -/
def compareRegionQuery (db : List FloatE) (ocean : String)
    (varList : List String) : Except String (List FloatE) :=
  match readStatusAttr (comparisonParams ocean varList) with
  | Except.error e => Except.error e
  | Except.ok _ => Except.ok (regionFloats db ocean varList)

/-- `_handle_comparison_query` (`ai_query.py` lines 116–200) with its
exception behaviour: default the variable list, then query each listed
ocean in order.  The first per-region query raises `AttributeError`, which
propagates to `process_ai_query`'s blanket handler as an HTTP 500, so the
handler fails whenever at least one ocean is listed — and it is only ever
invoked with two or more (the `COMPARISON:` sentinel requires at least two
recognized ocean names).  The `ok` continuation documents the response the
dead code below the read would build (`compareOceans`). -/
def compareOceansE (db : List FloatE) (oceans : List String)
    (varList0 : List String) :
    Except String
      (List (String × List (String × VarStats)) × List (String × String)) :=
  let varList := if varList0.isEmpty then defaultComparisonVars else varList0
  match oceans.mapM (fun o => compareRegionQuery db o varList) with
  | Except.error e => Except.error e
  | Except.ok _ => Except.ok (compareOceans db oceans varList0)

/-- Squaring equivalence used to relate the source's z-score comparison to
the variance-based embedding. -/
lemma two_mul_lt_abs_iff (s x : ℝ) (hs : 0 < s) :
    2 * s < |x| ↔ 4 * s ^ 2 < x ^ 2 := by
  rw [← sq_abs x]
  constructor
  · intro h; nlinarith [abs_nonneg x]
  · intro h; nlinarith [abs_nonneg x]

/-- A flagged record carries the float id of the latest-measurements entry
it came from. -/
lemma flagEntry_floatId {varName : String} {meanVal varVal : ℚ}
    {floatIds : List Nat} {entry : Nat × List (String × ℚ)}
    {r : AnomalyRecord}
    (h : flagEntry varName meanVal varVal floatIds entry = some r) :
    r.floatId = entry.1 := by
  simp only [flagEntry] at h
  split at h
  · exact absurd h (by simp)
  · split at h
    · split at h
      · cases h; rfl
      · exact absurd h (by simp)
    · exact absurd h (by simp)

/-- C1.  For every variable scanned with baseline mean μ and sample
deviation σ = √σ² > 0, the latest value v of a float known to the summary
lookup is flagged iff |v − μ| / σ is strictly greater than 2.0, and the
flagged record's direction is `"high"` when v > μ and `"low"` otherwise. -/
theorem anomaly_flag_iff_zscore (varName : String) (meanVal varVal v : ℚ)
    (fid : Nat) (floatIds : List Nat)
    (hvar : 0 < varVal) (hmem : fid ∈ floatIds) :
    ((flagEntry varName meanVal varVal floatIds
        (fid, [(varName, v)])).isSome ↔
      2 < |(v : ℝ) - (meanVal : ℝ)| / Real.sqrt (varVal : ℝ)) ∧
    (∀ r, flagEntry varName meanVal varVal floatIds
        (fid, [(varName, v)]) = some r →
      r.direction = if meanVal < v then "high" else "low") := by
  have hlk : (([(varName, v)] : List (String × ℚ)).lookup varName) = some v := by
    simp [List.lookup]
  constructor
  · have hs : (0 : ℝ) < Real.sqrt (varVal : ℝ) :=
      Real.sqrt_pos.mpr (by exact_mod_cast hvar)
    have hb : (flagEntry varName meanVal varVal floatIds
        (fid, [(varName, v)])).isSome ↔ 4 * varVal < (v - meanVal) ^ 2 := by
      simp only [flagEntry, hlk]
      by_cases hc : 4 * varVal < (v - meanVal) ^ 2
      · simp [hc, hmem]
      · simp [hc]
    rw [hb, lt_div_iff₀ hs, two_mul_lt_abs_iff _ _ hs,
      Real.sq_sqrt (by positivity : (0 : ℝ) ≤ (varVal : ℝ))]
    constructor
    · intro h; exact_mod_cast h
    · intro h; exact_mod_cast h
  · intro r hr
    simp only [flagEntry, hlk] at hr
    by_cases hc : 4 * varVal < (v - meanVal) ^ 2
    · rw [if_pos hc, if_pos hmem] at hr
      cases hr; rfl
    · simp [hc] at hr

/-- Witness for C1 at the spec's example: baseline μ = 10, σ = 1
(σ² = 1), observed value 12.01 is flagged with direction `"high"`, while
observed value 12.0 (z exactly 2.0) is not flagged. -/
theorem anomaly_flag_iff_zscore_witness :
    (0 : ℚ) < 1 ∧
    ((flagEntry "temperature" 10 1 [1]
        (1, [("temperature", 1201 / 100)])).isSome ↔
      2 < |((1201 / 100 : ℚ) : ℝ) - ((10 : ℚ) : ℝ)| /
        Real.sqrt ((1 : ℚ) : ℝ)) ∧
    (flagEntry "temperature" 10 1 [1]
        (1, [("temperature", 1201 / 100)])).isSome = true ∧
    ((flagEntry "temperature" 10 1 [1]
        (1, [("temperature", 1201 / 100)])).map AnomalyRecord.direction) =
      some "high" ∧
    flagEntry "temperature" 10 1 [1] (1, [("temperature", 12)]) = none :=
  ⟨by norm_num,
   (anomaly_flag_iff_zscore "temperature" 10 1 (1201 / 100) 1 [1]
      (by norm_num) (by simp)).1,
   by norm_num [flagEntry, List.lookup],
   by norm_num [flagEntry, List.lookup, scientificContext],
   by norm_num [flagEntry, List.lookup]⟩

/-- C2 (code bug).  With the latest profile of float 1 holding a surface
measurement (pressure 5 dbar, temperature 20) and a deep measurement
(pressure 100 dbar, temperature 2), `get_latest_measurements_for_floats`
returns the deepest reading (pressure 100, temperature 2): the descending
pressure sort places the deepest row first and the grouping loop keeps the
first row per float, despite the source's own comments "Get surface
measurements first" and "get first (surface) measurement". -/
theorem latest_measurement_picks_deepest :
    getLatestMeasurements
        [⟨1, 5, some 20, none, none, none⟩,
         ⟨1, 100, some 2, none, none, none⟩] ["temperature"] =
      [(1, [("temperature", 2)])] ∧
    (⟨1, 5, some 20, none, none, none⟩ : MeasRow).pressure <
      (⟨1, 100, some 2, none, none, none⟩ : MeasRow).pressure := by
  constructor
  · norm_num [getLatestMeasurements, sortByPressureDesc, insertByPressureDesc,
      groupFirstRow, rowValue, List.filterMap_cons]
  · norm_num

/-- The float ids of the records a variable scan emits form a subsequence of
the float ids of the latest-measurements mapping: the scan preserves its
iteration order and inserts nothing. -/
lemma scan_ids_sublist (varName : String) (meanVal varVal : ℚ)
    (floatIds : List Nat) :
    ∀ latest : List (Nat × List (String × ℚ)),
      List.Sublist
        ((latest.filterMap (flagEntry varName meanVal varVal floatIds)).map
          AnomalyRecord.floatId) (latest.map Prod.fst)
  | [] => by simp
  | a :: t => by
      cases hfa : flagEntry varName meanVal varVal floatIds a with
      | none =>
          simp only [List.filterMap_cons, hfa, List.map_cons]
          exact (scan_ids_sublist varName meanVal varVal floatIds t).trans
            (List.sublist_cons_self _ _)
      | some r =>
          simp only [List.filterMap_cons, hfa, List.map_cons,
            flagEntry_floatId hfa]
          exact List.Sublist.cons₂ _
            (scan_ids_sublist varName meanVal varVal floatIds t)

/-- C3 (amended).  The anomaly records are emitted grouped by variable in
the requested scan order (the concatenation of the per-variable scans), and
within one variable they follow the iteration order of the
latest-measurements mapping — the emitted float ids are a subsequence of
that mapping's keys.  No sorting by z-score or float id is performed. -/
theorem detect_anomalies_emission_order (varList : List String)
    (baselineData : List (String × List ℚ))
    (latest : List (Nat × List (String × ℚ))) (floatIds : List Nat) :
    detectAnomalies varList baselineData latest floatIds =
      varList.flatMap (fun varName =>
        match baselineData.lookup varName with
        | none => []
        | some baseline => scanVariable varName baseline latest floatIds) ∧
    ∀ (varName : String) (baseline : List ℚ),
      List.Sublist
        ((scanVariable varName baseline latest floatIds).map
          AnomalyRecord.floatId) (latest.map Prod.fst) := by
  refine ⟨rfl, ?_⟩
  intro varName baseline
  unfold scanVariable
  by_cases hlen : baseline.length < 10
  · simp [hlen]
  · rw [if_neg hlen]
    by_cases hv : sampleVarQ baseline = 0
    · simp [hv]
    · simp only [hv, if_false]
      exact scan_ids_sublist varName (meanQ baseline) (sampleVarQ baseline)
        floatIds latest

/-- Counterexample to C3 as stated: with a 10-value baseline of mean 1 and
sample variance 10/9, latest values 4 (z² = 8.1) for float 1 and 6
(z² = 22.5) for float 2, both flagged, the emitted order follows the
mapping order (float 1 first) and so is NOT sorted by z-score descending. -/
theorem detect_anomalies_not_zscore_sorted :
    specOrderedB ["temperature"]
        (detectAnomalies ["temperature"]
          [("temperature", [0, 0, 0, 0, 0, 2, 2, 2, 2, 2])]
          [(1, [("temperature", 4)]), (2, [("temperature", 6)])]
          [1, 2]) = false ∧
    (detectAnomalies ["temperature"]
          [("temperature", [0, 0, 0, 0, 0, 2, 2, 2, 2, 2])]
          [(1, [("temperature", 4)]), (2, [("temperature", 6)])]
          [1, 2]).map AnomalyRecord.zsq = [81 / 10, 45 / 2] := by
  have hmean : meanQ [0, 0, 0, 0, 0, 2, 2, 2, 2, 2] = 1 := by
    norm_num [meanQ]
  have hvar : sampleVarQ [0, 0, 0, 0, 0, 2, 2, 2, 2, 2] = 10 / 9 := by
    norm_num [sampleVarQ, meanQ]
  have heval : detectAnomalies ["temperature"]
      [("temperature", [0, 0, 0, 0, 0, 2, 2, 2, 2, 2])]
      [(1, [("temperature", 4)]), (2, [("temperature", 6)])] [1, 2] =
      [{ floatId := 1, varName := "temperature", value := 4, zsq := 81 / 10,
         direction := "high",
         context := some "Possible marine heatwave or warm water intrusion" },
       { floatId := 2, varName := "temperature", value := 6, zsq := 45 / 2,
         direction := "high",
         context := some "Possible marine heatwave or warm water intrusion" }] := by
    norm_num [detectAnomalies, scanVariable, List.lookup, hmean, hvar,
      flagEntry, scientificContext, List.filterMap_cons]
  rw [heval]
  constructor
  · norm_num [specOrderedB, List.indexOf]
  · norm_num

/-- Counterexample to C4 as stated: for the non-empty requested list
`["bogus"]` (a name that is not a measurement column) the filter applies no
restriction and admits a float none of whose measurements has a non-null
value for any requested variable, while the claimed predicate rejects it. -/
theorem variable_filter_unrecognized_cex :
    applyVariableFilter ["bogus"]
        [⟨1, "active", [⟨0, 0, [⟨7, none, none, none, none, none, none, none⟩]⟩]⟩] =
      [⟨1, "active", [⟨0, 0, [⟨7, none, none, none, none, none, none, none⟩]⟩]⟩] ∧
    specVariableMatch ["bogus"]
        ⟨1, "active", [⟨0, 0, [⟨7, none, none, none, none, none, none, none⟩]⟩]⟩ =
      false := by
  constructor
  · rfl
  · rfl

/-- C4 (amended).  For every requested variable list, the filter admits a
float iff it is in the input set and either none of the requested names is
a recognized measurement column (then the filter applies no restriction at
all), or at least one recognized requested variable has a non-null value in
at least one of the float's measurements — an OR across the recognized
requested variables, so a float satisfying only one of several requested
variables still qualifies. -/
theorem variable_filter_or_semantics (varList : List String)
    (floats : List FloatE) (f : FloatE) :
    f ∈ applyVariableFilter varList floats ↔
      f ∈ floats ∧
        (varList.filter isMeasurementColumn = [] ∨
          specVariableMatch (varList.filter isMeasurementColumn) f = true) := by
  unfold applyVariableFilter
  by_cases h : (varList.filter isMeasurementColumn).isEmpty
  · rw [List.isEmpty_iff] at h
    simp [h]
  · rw [List.isEmpty_iff] at h
    rw [if_neg (by simpa [List.isEmpty_iff] using h)]
    have hfalse : (varList.filter isMeasurementColumn = []) ↔ False :=
      iff_false_intro h
    simp only [List.mem_filter, specVariableMatch, List.any_eq_true,
      decide_eq_true_eq, Option.isSome_iff_exists, hfalse, false_or]
    constructor
    · rintro ⟨hf, p, hp, m, hm, v, hv, q, hq⟩
      exact ⟨hf, v, hv, p, hp, m, hm, q, hq⟩
    · rintro ⟨hf, v, hv, p, hp, m, hm, q, hq⟩
      exact ⟨hf, p, hp, m, hm, v, hv, q, hq⟩

/-- C6.  A float passes the depth filter iff it is in the input set and has
a measurement whose pressure lies in the interval obtained by scaling both
depth bounds by 1.02 (meters → dbar); in particular the depth range
[0, 100] m converts to the pressure interval [0, 102] dbar. -/
theorem depth_filter_conversion (minD maxD : ℚ) (floats : List FloatE)
    (f : FloatE) :
    (f ∈ applyDepthFilter (minD, maxD) floats ↔
      f ∈ floats ∧ ∃ p ∈ f.profiles, ∃ m ∈ p.measurements,
        minD * 1.02 ≤ m.pressure ∧ m.pressure ≤ maxD * 1.02) ∧
    depthToPressure 0 = 0 ∧ depthToPressure 100 = 102 := by
  refine ⟨?_, by norm_num [depthToPressure], by norm_num [depthToPressure]⟩
  unfold applyDepthFilter depthToPressure
  simp [List.mem_filter, List.any_eq_true, Bool.and_eq_true, decide_eq_true_eq]

/-- C7.  A variable whose baseline sample has fewer than 10 values, or
whose sample deviation is zero (σ = 0 iff σ² = 0), is skipped silently: the
scan returns no records and raises nothing.  With exactly 9 baseline values
the scan is skipped; with at least 10 values and nonzero deviation the scan
is attempted — it runs the per-float flagging over the whole
latest-measurements mapping. -/
theorem anomaly_baseline_skip (varName : String) (baseline : List ℚ)
    (latest : List (Nat × List (String × ℚ))) (floatIds : List Nat) :
    (baseline.length < 10 ∨ sampleVarQ baseline = 0 →
      scanVariable varName baseline latest floatIds = []) ∧
    (baseline.length = 9 →
      scanVariable varName baseline latest floatIds = []) ∧
    (10 ≤ baseline.length → sampleVarQ baseline ≠ 0 →
      scanVariable varName baseline latest floatIds =
        latest.filterMap
          (flagEntry varName (meanQ baseline) (sampleVarQ baseline)
            floatIds)) := by
  refine ⟨?_, ?_, ?_⟩
  · rintro (h | h)
    · simp [scanVariable, h]
    · by_cases hl : baseline.length < 10
      · simp [scanVariable, hl]
      · simp [scanVariable, hl, h]
  · intro h
    simp [scanVariable, h]
  · intro h1 h2
    unfold scanVariable
    rw [if_neg (by omega)]
    simp [h2]

/-- Witness for C7: a 9-value baseline is skipped; the 10-value baseline
[1, …, 10] (sample variance 55/6 ≠ 0) is scanned. -/
theorem anomaly_baseline_skip_witness :
    scanVariable "temperature" [1, 2, 3, 4, 5, 6, 7, 8, 9]
        [(1, [("temperature", 100)])] [1] = [] ∧
    scanVariable "temperature" [1, 2, 3, 4, 5, 6, 7, 8, 9, 10]
        [(1, [("temperature", 100)])] [1] =
      [(1, [("temperature", (100 : ℚ))])].filterMap
        (flagEntry "temperature" (meanQ [1, 2, 3, 4, 5, 6, 7, 8, 9, 10])
          (sampleVarQ [1, 2, 3, 4, 5, 6, 7, 8, 9, 10]) [1]) :=
  ⟨(anomaly_baseline_skip "temperature" [1, 2, 3, 4, 5, 6, 7, 8, 9]
      [(1, [("temperature", 100)])] [1]).2.1 (by simp),
   (anomaly_baseline_skip "temperature" [1, 2, 3, 4, 5, 6, 7, 8, 9, 10]
      [(1, [("temperature", 100)])] [1]).2.2 (by simp)
      (by norm_num [sampleVarQ, meanQ])⟩

/-- C8.  For a bounding box `(minLon, minLat, maxLon, maxLat)` with
minLon < maxLon and minLat < maxLat, a float passes the spatial filter iff
it is in the input set and at least one of its profiles has longitude in
[minLon, maxLon] and latitude in [minLat, maxLat], bounds inclusive. -/
theorem bbox_filter_membership (minLon minLat maxLon maxLat : ℚ)
    (floats : List FloatE) (f : FloatE)
    (_hlon : minLon < maxLon) (_hlat : minLat < maxLat) :
    f ∈ applyBboxFilter (minLon, minLat, maxLon, maxLat) floats ↔
      f ∈ floats ∧ ∃ p ∈ f.profiles,
        minLon ≤ p.longitude ∧ p.longitude ≤ maxLon ∧
        minLat ≤ p.latitude ∧ p.latitude ≤ maxLat := by
  unfold applyBboxFilter profileInBox
  simp only [List.mem_filter, List.any_eq_true, Bool.and_eq_true,
    decide_eq_true_eq]
  constructor
  · rintro ⟨hf, p, hp, ⟨⟨⟨h1, h2⟩, h3⟩, h4⟩⟩
    exact ⟨hf, p, hp, h3, h4, h1, h2⟩
  · rintro ⟨hf, p, hp, h3, h4, h1, h2⟩
    exact ⟨hf, p, hp, ⟨⟨⟨h1, h2⟩, h3⟩, h4⟩⟩

/-- Witness for C8 at the box (0, 0, 10, 10) and a float with a single
profile at longitude 5, latitude 5. -/
theorem bbox_filter_membership_witness :
    (⟨1, "active", [⟨5, 5, []⟩]⟩ : FloatE) ∈
        applyBboxFilter (0, 0, 10, 10)
          [(⟨1, "active", [⟨5, 5, []⟩]⟩ : FloatE)] ↔
      (⟨1, "active", [⟨5, 5, []⟩]⟩ : FloatE) ∈
          [(⟨1, "active", [⟨5, 5, []⟩]⟩ : FloatE)] ∧
        ∃ p ∈ (⟨1, "active", [⟨5, 5, []⟩]⟩ : FloatE).profiles,
          (0 : ℚ) ≤ p.longitude ∧ p.longitude ≤ 10 ∧
          (0 : ℚ) ≤ p.latitude ∧ p.latitude ≤ 10 :=
  bbox_filter_membership 0 0 10 10 [⟨1, "active", [⟨5, 5, []⟩]⟩]
    ⟨1, "active", [⟨5, 5, []⟩]⟩ (by norm_num) (by norm_num)

/-- C9 (code bug).  The question "find inactive floats" contains the status
keyword "inactive", yet the fallback extraction returns status "active":
the source tests `'active' in question_lower` before `'inactive' in
question_lower`, and every string containing "inactive" contains "active"
as a substring, so the inactive branch is unreachable. -/
theorem inactive_status_maps_to_active :
    (extractBasicParameters "find inactive floats").status = some "active" ∧
    (extractBasicParameters "find inactive floats").status ≠ some "inactive" ∧
    containsSub "inactive".data (lowerStr "find inactive floats") = true := by
  refine ⟨?_, ?_, by decide⟩
  · decide
  · decide

/-- Counterexample to C10 as stated: "thanks wmo 12" matches the casual
phrase "thanks", contains no oceanographic keyword and has fewer than 8
words, yet the extracted criteria are not all empty — the float-id pattern
`wmo\s+(\d+)` is checked first and fills the free-text field. -/
theorem casual_greeting_floatid_cex :
    anyKw oceanographicKeywords (lowerStr "thanks wmo 12") = false ∧
    wordCount (lowerStr "thanks wmo 12") < 8 ∧
    anyKw casualPhrases (lowerStr "thanks wmo 12") = true ∧
    extractBasicParameters "thanks wmo 12" ≠ emptyParams ∧
    (extractBasicParameters "thanks wmo 12").general_search_term =
      some "FLOAT_ID:12" := by
  refine ⟨by decide, by decide, by decide, ?_, by decide⟩
  decide

/-- C10 (amended).  A question with no oceanographic keywords, fewer than 8
words, matching a casual-greeting keyword, and not matching any float-id
pattern yields criteria with every field empty.  Downstream, however, the
all-empty criteria is NOT answered with the rejection message: the guard of
`process_ai_query` reads the undeclared `status` attribute of the
constructed criteria and the request fails with `AttributeError`, surfaced
as an HTTP 500 "Query Processing Error" — the rejection branch is
unreachable. -/
theorem casual_greeting_error_path (question : String)
    (hfid : floatIdSearch (lowerStr question) = none)
    (hocean : anyKw oceanographicKeywords (lowerStr question) = false)
    (hlen : wordCount (lowerStr question) < 8)
    (hcasual : anyKw casualPhrases (lowerStr question) = true) :
    extractBasicParameters question = emptyParams ∧
    routeForParamsS (constructSchema (extractBasicParameters question)) =
      Except.error attributeErrorStatus := by
  have h1 : extractBasicParameters question = emptyParams := by
    unfold extractBasicParameters
    dsimp only
    rw [hfid]
    by_cases hirr : anyKw irrelevantKeywords (lowerStr question) = true
    · simp [hirr, emptyParams]
    · simp [hirr, hocean, hlen, hcasual, emptyParams]
  refine ⟨h1, ?_⟩
  rw [h1]
  rfl

/-- Witness for C10 at the question "hello". -/
theorem casual_greeting_error_path_witness :
    extractBasicParameters "hello" = emptyParams ∧
    routeForParamsS (constructSchema (extractBasicParameters "hello")) =
      Except.error attributeErrorStatus :=
  casual_greeting_error_path "hello" (by decide) (by decide) (by decide)
    (by decide)

/-- A measurement holding only a temperature value, at pressure 10 dbar. -/
def tempMeas (t : ℚ) : MeasurementE :=
  ⟨10, none, some t, none, none, none, none, none⟩

/-- A float whose single profile lies in the Pacific region box. -/
def pacificFloat (t : ℚ) : FloatE := ⟨1, "active", [⟨0, -100, [tempMeas t]⟩]⟩

/-- A float whose single profile lies in the Atlantic region box, with
temperature 10. -/
def atlanticFloat : FloatE := ⟨2, "active", [⟨0, 0, [tempMeas 10]⟩]⟩

/-- Counterexample to C5 as stated: on a store where both regions hold the
common variable temperature, neither compare(Pacific, Atlantic) nor
compare(Atlantic, Pacific) reports any per-region statistics or any
"higher" label — both calls abort with `AttributeError` on the undeclared
`status` field before any filtering or aggregation runs. -/
theorem comparison_error_cex :
    compareOceansE [pacificFloat 10, atlanticFloat]
        ["Pacific Ocean", "Atlantic Ocean"] ["temperature"] =
      Except.error attributeErrorStatus ∧
    compareOceansE [pacificFloat 10, atlanticFloat]
        ["Atlantic Ocean", "Pacific Ocean"] ["temperature"] =
      Except.error attributeErrorStatus :=
  ⟨rfl, rfl⟩

/-- C5 (amended).  compare(A, B) and compare(B, A) behave identically only
in that both always fail: for every store, every non-empty ocean list and
every requested variable list, the comparison raises `AttributeError`
reading the undeclared `status` field of the criteria inside the first
per-region query, is surfaced as an HTTP 500 error, and reports no
per-region statistics and no "higher" labels. -/
theorem comparison_always_errors (db : List FloatE) (oceans : List String)
    (varList0 : List String) (h : oceans ≠ []) :
    compareOceansE db oceans varList0 =
      Except.error attributeErrorStatus := by
  cases oceans with
  | nil => exact absurd rfl h
  | cons o rest => rfl

/-- Witness for C5: the comparison of Pacific and Atlantic over temperature
on a concrete store fails with the `status` attribute error. -/
theorem comparison_always_errors_witness :
    compareOceansE [pacificFloat 20, atlanticFloat]
        ["Pacific Ocean", "Atlantic Ocean"] ["temperature"] =
      Except.error attributeErrorStatus :=
  comparison_always_errors [pacificFloat 20, atlanticFloat]
    ["Pacific Ocean", "Atlantic Ocean"] ["temperature"] (by decide)
